import Mathlib

/-!
Verification of the `mt_providers` package (a provider-registry framework for
pluggable translation backends) against its specification.

The development is a shallow embedding of the Python sources:

* `types.py`    — `TranslationStatus`, `TranslationConfig`, `TranslationResponse`;
* `base.py`     — `BaseTranslationProvider` (construction/validation, the default
  `translate_async`, `bulk_translate`, and the `_create_response` helper);
* `registry.py` — the provider registry (`register_provider`, `get_provider` with
  its `lru_cache`, `list_providers`, `discover_providers`, `check_provider_health`);
* `utils.py`    — `validate_language_code` / `normalize_language_code`.

Modelling conventions: Python exceptions become `Except PyErr`; `Optional[str]`
becomes `Option String`; Python truthiness of an optional string (`if error:`)
is `pyTruthyStr`; machine-level concerns (uuid generation, wall-clock capture)
are passed in as explicit parameters representing the value captured at call
time.  The framework version string (`mt_providers/version.py`, re-exported as
`__version__`) is not part of the sources; versions are modelled as dotted
numeral lists compared lexicographically, and the running framework version is
an explicit parameter of the operations that consult it.
-/

namespace MTProviders

/-- Embedding of `types.TranslationStatus` (`SUCCESS`/`FAILED`/`PENDING`). -/
inductive TranslationStatus where
  | success
  | failed
  | pending
  deriving DecidableEq, Repr

/-- Kinds of exception raised by the package (`exceptions.py`), plus Python's
built-in `NotImplementedError` raised by the default `translate_async`.
`providerNotFoundError` and `configurationError` are subclasses of
`ProviderError` in the source; they are separate constructors here, with the
subclass relation irrelevant to the claims. -/
inductive PyErr where
  | providerError (msg : String)
  | providerNotFoundError (msg : String)
  | configurationError (msg : String)
  | validationError (msg : String)
  | notImplementedError (msg : String)
  deriving DecidableEq, Repr

/-- Embedding of `types.TranslationConfig`.  `timeout`, `retry_attempts` and the
float field `retry_backoff` are carried by the dataclass but not consulted by
any operation modelled here; the float is omitted. -/
structure TranslationConfig where
  api_key : String
  endpoint : Option String := none
  region : Option String := none
  timeout : Nat := 30
  rate_limit : Option Nat := none
  retry_attempts : Nat := 3
  user_agent_name : Option String := none
  user_agent_version : Option String := none
  deriving DecidableEq, Repr

/-- Embedding of `types.TranslationResponse` (a `TypedDict` in the source).
`timestamp` abstracts the `datetime` captured at creation; `metadata` models
`Dict[str, Any]` as a string-keyed association list. -/
structure TranslationResponse where
  translated_text : String
  source_lang : String
  target_lang : String
  provider : String
  char_count : Nat
  status : TranslationStatus
  error : Option String
  request_id : String
  timestamp : Nat
  metadata : List (String × String)
  deriving DecidableEq, Repr

/-- Python truthiness of an `Optional[str]`: `None` and the empty string are
falsy, every other string is truthy. -/
def pyTruthyStr : Option String → Bool
  | none => false
  | some s => !s.isEmpty

/-- Version strings (`packaging.version`) restricted to dotted numerals, as a
list of numeric components compared lexicographically by `versionLt`. -/
def versionLt : List Nat → List Nat → Bool
  | _, [] => false
  | [], _ :: _ => true
  | a :: as, b :: bs => if a < b then true else if b < a then false else versionLt as bs

/-- Embedding of a provider class: the class attributes declared on
`BaseTranslationProvider` together with the concrete subclass's `translate`
implementation (the abstract method, modelled as a pure function — per the
contract, providers signal operational failure through the returned response).
`isSubclassOfBase` models the `issubclass(cls, BaseTranslationProvider)`
structural check made by `register_provider` (in the typed embedding a
non-subclass candidate is representable only through this flag). -/
structure ProviderCls where
  name : String
  requires_region : Bool := false
  supports_async : Bool := false
  max_chunk_size : Nat := 5000
  min_supported_version : List Nat := [0, 1, 8]
  isSubclassOfBase : Bool := true
  translate : String → String → String → TranslationResponse

/-! ### base.py: `_create_response` -/

/-- Embedding of `BaseTranslationProvider._create_response`.  `provider` is
`self.name`; `request_id` models the `str(uuid.uuid4())` generated during the
call and `timestamp` the `datetime.now(timezone.utc)` captured during the call
— both are parameters holding the value produced at call time.  The status is
`FAILED if error else SUCCESS` (Python truthiness), and `metadata or {}`
defaults a falsy metadata argument to the empty map. -/
def create_response (provider : String) (translated_text : String)
    (source_lang : String) (target_lang : String) (char_count : Nat)
    (error : Option String) (metadata : Option (List (String × String)))
    (request_id : String) (timestamp : Nat) : TranslationResponse :=
  { translated_text := translated_text
    source_lang := source_lang
    target_lang := target_lang
    provider := provider
    char_count := char_count
    status := if pyTruthyStr error then TranslationStatus.failed else TranslationStatus.success
    error := error
    request_id := request_id
    timestamp := timestamp
    metadata := metadata.getD [] }

/-! ### base.py: default `translate_async` and `bulk_translate` -/

/-- Embedding of the default `BaseTranslationProvider.translate_async`.  When
the provider does not declare async support the synchronous `translate` is run
in an executor off the calling thread and its result awaited (functionally: its
result is returned); when the provider declares async support without
overriding this method, `NotImplementedError` is raised. -/
def translate_async_default (p : ProviderCls) (text : String) (source_lang : String)
    (target_lang : String) : Except PyErr TranslationResponse :=
  if !p.supports_async then
    Except.ok (p.translate text source_lang target_lang)
  else
    Except.error (PyErr.notImplementedError "Async translation not implemented")

/-- Embedding of the default `BaseTranslationProvider.bulk_translate`: the list
comprehension `[self.translate(text, ...) for text in texts]`, written as the
left-to-right structural recursion the comprehension evaluates. -/
def bulk_translate (p : ProviderCls) (texts : List String) (source_lang : String)
    (target_lang : String) : List TranslationResponse :=
  match texts with
  | [] => []
  | t :: rest => p.translate t source_lang target_lang :: bulk_translate p rest source_lang target_lang

theorem bulk_translate_eq_map (p : ProviderCls) (texts : List String) (s g : String) :
    bulk_translate p texts s g = texts.map (fun t => p.translate t s g) := by
  induction texts with
  | nil => rfl
  | cons t rest ih => simp [bulk_translate, ih]

/-! ### Claim theorems for the base-class helpers -/

/-- C5 (counterexample): the claim says the response status is FAILED iff an
error was given.  The source computes `FAILED if error else SUCCESS` with
Python truthiness, so supplying the empty-string error yields a SUCCESS
response even though an error value was given. -/
theorem create_response_empty_error_success :
    (create_response "p" "hola" "en" "es" 4 (some "") none "id-1" 0).status =
      TranslationStatus.success ∧ some "" ≠ (none : Option String) := by
  exact ⟨rfl, by simp⟩

/-- C5 (amended): the response built by `_create_response` has status FAILED
iff a truthy (non-empty) error string was given and SUCCESS otherwise, carries
the given error value unchanged, and carries the request id generated at call
time and the UTC timestamp captured at call time (both modelled as the
parameters holding those captured values). -/
theorem create_response_spec (provider tt sl tl : String) (cc : Nat)
    (error : Option String) (md : Option (List (String × String)))
    (rid : String) (ts : Nat) :
    ((create_response provider tt sl tl cc error md rid ts).status =
        TranslationStatus.failed ↔ ∃ s, error = some s ∧ s ≠ "") ∧
    (create_response provider tt sl tl cc error md rid ts).error = error ∧
    (create_response provider tt sl tl cc error md rid ts).request_id = rid ∧
    (create_response provider tt sl tl cc error md rid ts).timestamp = ts := by
  refine ⟨?_, rfl, rfl, rfl⟩
  cases error with
  | none => simp [create_response, pyTruthyStr]
  | some s =>
    by_cases hs : s = "" <;>
      simp [create_response, pyTruthyStr, hs, String.isEmpty_iff]

/-- C8: the default `translate_async` delegates to the synchronous `translate`
(run off the calling thread) and returns its result whenever the provider does
not declare async support; when the provider declares async support but has not
overridden `translate_async`, the default raises `NotImplementedError`. -/
theorem translate_async_default_spec (p : ProviderCls) (text s g : String) :
    (p.supports_async = false →
      translate_async_default p text s g = Except.ok (p.translate text s g)) ∧
    (p.supports_async = true →
      translate_async_default p text s g =
        Except.error (PyErr.notImplementedError "Async translation not implemented")) := by
  constructor <;> intro h <;> simp [translate_async_default, h]

/-- Sample synchronous-only provider used by closed witness statements. -/
def sampleRespFn : String → String → String → TranslationResponse :=
  fun t s g => create_response "sync" t s g t.length none none "rid" 0

/-- Sample provider without async support. -/
def syncProvider : ProviderCls := { name := "sync", translate := sampleRespFn }

/-- Sample provider declaring async support without an override. -/
def asyncProvider : ProviderCls :=
  { name := "async", supports_async := true, translate := sampleRespFn }

/-- Witness for C8, at a provider without async support and one with it. -/
theorem translate_async_default_spec_witness :
    translate_async_default syncProvider "hi" "en" "fr" =
        Except.ok (syncProvider.translate "hi" "en" "fr") ∧
    translate_async_default asyncProvider "hi" "en" "fr" =
        Except.error (PyErr.notImplementedError "Async translation not implemented") :=
  ⟨(translate_async_default_spec syncProvider "hi" "en" "fr").1 rfl,
   (translate_async_default_spec asyncProvider "hi" "en" "fr").2 rfl⟩

/-- C9: the default `bulk_translate` produces exactly one response per input
text — the i-th output is `translate` applied to the i-th input — in input
order, and produces the empty list for the empty input. -/
theorem bulk_translate_spec (p : ProviderCls) (texts : List String) (s g : String) :
    (bulk_translate p texts s g).length = texts.length ∧
    (∀ i : Nat, (bulk_translate p texts s g)[i]? =
        (texts[i]?).map (fun t => p.translate t s g)) ∧
    bulk_translate p [] s g = [] := by
  refine ⟨?_, ?_, rfl⟩
  · rw [bulk_translate_eq_map]; exact List.length_map _ _
  · intro i; rw [bulk_translate_eq_map]; exact List.getElem?_map _ _ _

/-! ### registry.py: the provider registry -/

/-- The registry mapping provider name to provider class — the module-level
`PROVIDER_REGISTRY` dict, as an insertion-ordered association list. -/
abbrev Registry := List (String × ProviderCls)

/-- Lookup in the registry (`PROVIDER_REGISTRY[name]` / `name in ...`). -/
def lookupReg (reg : Registry) (n : String) : Option ProviderCls :=
  match reg with
  | [] => none
  | (k, v) :: rest => if k = n then some v else lookupReg rest n

/-- Python dict assignment `d[k] = v`: replaces the value when the key is
present, otherwise appends the new binding (dicts preserve insertion order). -/
def dictInsert (reg : Registry) (n : String) (cls : ProviderCls) : Registry :=
  match reg with
  | [] => [(n, cls)]
  | (k, v) :: rest => if k = n then (k, cls) :: rest else (k, v) :: dictInsert rest n cls

/-- Insertion of a string into an ascending list, for `sorted`. -/
def insertSorted (x : String) : List String → List String
  | [] => [x]
  | y :: ys => if x ≤ y then x :: y :: ys else y :: insertSorted x ys

/-- Embedding of `list_providers`: `sorted(PROVIDER_REGISTRY.keys())`. -/
def list_providers (reg : Registry) : List String :=
  (reg.map Prod.fst).foldr insertSorted []

/-- Embedding of `register_provider`, parametrised by the running framework
version `fw` (the `__version__` consulted by the compatibility check).  The
checks run in source order: falsy/non-string name, duplicate name, subclass
check, minimum-version check; on success the class is inserted (under the
registry lock, which in a sequential embedding is the plain insert). -/
def register_provider (fw : List Nat) (reg : Registry) (name : String)
    (cls : ProviderCls) : Except PyErr Registry :=
  if name = "" then
    Except.error (PyErr.providerError "Provider name must be a non-empty string")
  else if (lookupReg reg name).isSome then
    Except.error (PyErr.providerError ("Provider " ++ name ++ " is already registered"))
  else if !cls.isSubclassOfBase then
    Except.error (PyErr.providerError
      ("Provider " ++ name ++ " must inherit from BaseTranslationProvider"))
  else if versionLt fw cls.min_supported_version then
    Except.error (PyErr.providerError ("Provider " ++ name ++ " requires a newer mt_providers"))
  else
    Except.ok (dictInsert reg name cls)

/-- Global-state view of a `register_provider` call: a raised error leaves the
module-level registry as it was; success replaces it with the new mapping. -/
def register_provider_run (fw : List Nat) (reg : Registry) (name : String)
    (cls : ProviderCls) : Registry :=
  match register_provider fw reg name cls with
  | Except.ok r => r
  | Except.error _ => reg

/-- The message of the `ProviderNotFoundError` raised by `get_provider`; the
source interpolates the sorted list of registered names into the f-string
(Python additionally quotes each name in the list repr). -/
def not_found_message (name : String) (available : List String) : String :=
  "Provider " ++ name ++ " not found. Available providers: [" ++
    String.intercalate ", " available ++ "]"

/-- State of the lookup path: the registry plus the unbounded `lru_cache`
sitting in front of `get_provider`. -/
structure RegistryState where
  registry : Registry
  cache : Registry

/-- Embedding of `get_provider` under its `@lru_cache(maxsize=None)`.  On a
cache hit the wrapped function does not run (the stored result is returned);
on a miss the wrapped body runs: a successful dict lookup is memoized, a
`KeyError` produces a `ProviderNotFoundError` enumerating `list_providers()`
(exceptions are not cached by `lru_cache`).  The final component reports
whether the wrapped body ran, i.e. whether the underlying store was scanned. -/
def get_provider (st : RegistryState) (name : String) :
    Except PyErr ProviderCls × RegistryState × Bool :=
  match lookupReg st.cache name with
  | some cls => (Except.ok cls, st, false)
  | none =>
    match lookupReg st.registry name with
    | some cls => (Except.ok cls, { st with cache := st.cache ++ [(name, cls)] }, true)
    | none =>
      (Except.error (PyErr.providerNotFoundError
          (not_found_message name (list_providers st.registry))), st, true)

/-- Embedding of `clear_registry`: empties the mapping and the lookup cache. -/
def clear_registry (_st : RegistryState) : RegistryState :=
  { registry := [], cache := [] }

/-- Cache consistency: every memoized binding agrees with the backing store.
All states reachable through `register_provider`/`get_provider`/
`clear_registry` satisfy it (registration never replaces an existing name, and
the cache is only ever populated from the store). -/
def cacheConsistent (st : RegistryState) : Prop :=
  ∀ n c, lookupReg st.cache n = some c → lookupReg st.registry n = some c

theorem lookupReg_append_self (cache : Registry) (name : String) (c : ProviderCls)
    (h : lookupReg cache name = none) :
    lookupReg (cache ++ [(name, c)]) name = some c := by
  induction cache with
  | nil => simp [lookupReg]
  | cons kv rest ih =>
    obtain ⟨k, v⟩ := kv
    by_cases hk : k = name
    · simp [lookupReg, hk] at h
    · simp only [List.cons_append, lookupReg, if_neg hk] at h ⊢
      exact ih h

/-! ### Claim theorems for `register_provider` and `get_provider` -/

/-- C1: when `name` is already present in the registry, a second
`register_provider(name, cls)` call raises a `ProviderError` and the mapping is
unchanged: the name still maps to the first-registered class. -/
theorem register_provider_duplicate_rejected (fw : List Nat) (reg : Registry)
    (name : String) (cls₀ cls : ProviderCls)
    (h : lookupReg reg name = some cls₀) :
    (∃ msg, register_provider fw reg name cls = Except.error (PyErr.providerError msg)) ∧
    register_provider_run fw reg name cls = reg ∧
    lookupReg (register_provider_run fw reg name cls) name = some cls₀ := by
  by_cases hn : name = ""
  · subst hn
    refine ⟨⟨"Provider name must be a non-empty string", ?_⟩, ?_, ?_⟩ <;>
      simp [register_provider, register_provider_run, h]
  · refine ⟨⟨"Provider " ++ name ++ " is already registered", ?_⟩, ?_, ?_⟩ <;>
      simp [register_provider, register_provider_run, hn, h]

/-- Witness for C1: registering the name `x` a second time fails with a
`ProviderError` and the registry still maps `x` to the first class. -/
theorem register_provider_duplicate_rejected_witness :
    (∃ msg, register_provider [0, 1, 8] [("x", MTProviders.syncProvider)] "x"
        MTProviders.asyncProvider = Except.error (PyErr.providerError msg)) ∧
    register_provider_run [0, 1, 8] [("x", MTProviders.syncProvider)] "x"
        MTProviders.asyncProvider = [("x", MTProviders.syncProvider)] ∧
    lookupReg (register_provider_run [0, 1, 8] [("x", MTProviders.syncProvider)] "x"
        MTProviders.asyncProvider) "x" = some MTProviders.syncProvider :=
  register_provider_duplicate_rejected [0, 1, 8] [("x", MTProviders.syncProvider)]
    "x" MTProviders.syncProvider MTProviders.asyncProvider (by simp [lookupReg])

/-- C7: on a cache-consistent state, `get_provider` on an absent name raises a
`ProviderNotFoundError` whose message enumerates the currently registered
(sorted) provider names; on a registered name it returns the registered class;
and after a first successful lookup the result is memoized — a repeated lookup
for the same name returns the same class without scanning the store. -/
theorem get_provider_spec (st : RegistryState) (name : String)
    (hC : cacheConsistent st) :
    (lookupReg st.registry name = none →
      get_provider st name =
        (Except.error (PyErr.providerNotFoundError
            (not_found_message name (list_providers st.registry))), st, true)) ∧
    (∀ c, lookupReg st.registry name = some c →
      (get_provider st name).1 = Except.ok c) ∧
    (∀ c, lookupReg st.registry name = some c →
      get_provider (get_provider st name).2.1 name =
        (Except.ok c, (get_provider st name).2.1, false)) := by
  refine ⟨?_, ?_, ?_⟩
  · intro habs
    match hcache : lookupReg st.cache name with
    | some c => exact absurd (hC name c hcache) (by simp [habs])
    | none => simp [get_provider, hcache, habs]
  · intro c hreg
    match hcache : lookupReg st.cache name with
    | some c' =>
      have := hC name c' hcache
      rw [this] at hreg
      simp [get_provider, hcache, ← Option.some_inj.mp hreg]
    | none => simp [get_provider, hcache, hreg]
  · intro c hreg
    match hcache : lookupReg st.cache name with
    | some c' =>
      have := hC name c' hcache
      rw [this] at hreg
      simp [get_provider, hcache, ← Option.some_inj.mp hreg]
    | none =>
      have hlook := lookupReg_append_self st.cache name c hcache
      simp [get_provider, hcache, hreg, hlook]

/-- Witness for C7: on the one-entry registry with an empty (consistent) cache,
looking up a missing name `b` errors with the message enumerating `[x]`, and a
repeated lookup of the present name `x` is served without a store scan. -/
theorem get_provider_spec_witness :
    (get_provider ⟨[("x", MTProviders.syncProvider)], []⟩ "b" =
      (Except.error (PyErr.providerNotFoundError
          (not_found_message "b" (list_providers [("x", MTProviders.syncProvider)]))),
        ⟨[("x", MTProviders.syncProvider)], []⟩, true)) ∧
    (get_provider (get_provider ⟨[("x", MTProviders.syncProvider)], []⟩ "x").2.1 "x" =
      (Except.ok MTProviders.syncProvider,
        (get_provider ⟨[("x", MTProviders.syncProvider)], []⟩ "x").2.1, false)) := by
  have hc : cacheConsistent ⟨[("x", MTProviders.syncProvider)], []⟩ := by
    intro n c h; simp [lookupReg] at h
  refine ⟨(get_provider_spec ⟨[("x", MTProviders.syncProvider)], []⟩ "b" hc).1
      (by simp [lookupReg]), ?_⟩
  exact (get_provider_spec ⟨[("x", MTProviders.syncProvider)], []⟩ "x" hc).2.2
    MTProviders.syncProvider (by simp [lookupReg])

/-! ### registry.py: `discover_providers` -/

/-- Result of `entry_point.load()`: the loaded provider class, with `nameAttr`
modelling the presence and value of its `name` attribute (`hasattr` check). -/
structure LoadedProvider where
  nameAttr : Option String
  cls : ProviderCls

/-- An entry point of the host packaging metadata under the fixed group. -/
structure EntryPoint where
  epName : String
  load : Except PyErr LoadedProvider

/-- Per-entry body of the discovery loop with `raise_errors=False` (the
default): load the entry point, require a `name` attribute, and attempt
registration; any raised error is caught and logged, yielding `none`, and a
success yields the registered name and the updated registry. -/
def epRegister (fw : List Nat) (ep : EntryPoint) (reg : Registry) :
    Option (String × Registry) :=
  match ep.load with
  | Except.error _ => none
  | Except.ok lp =>
    match lp.nameAttr with
    | none => none
    | some nm =>
      match register_provider fw reg nm lp.cls with
      | Except.ok r => some (nm, r)
      | Except.error _ => none

/-- Embedding of `discover_providers` with `raise_errors=False`: folds the
per-entry registration over the declared entry points, accumulating the names
that were successfully registered during this call. -/
def discover_providers (fw : List Nat) :
    List EntryPoint → Registry → List String × Registry
  | [], reg => ([], reg)
  | ep :: rest, reg =>
    match epRegister fw ep reg with
    | some (nm, reg') =>
      let p := discover_providers fw rest reg'
      (nm :: p.1, p.2)
    | none => discover_providers fw rest reg

/-- Key inclusion between registries. -/
def keysSub (r₁ r₂ : Registry) : Prop :=
  ∀ n, (lookupReg r₁ n).isSome → (lookupReg r₂ n).isSome

theorem lookupReg_dictInsert_isSome (reg : Registry) (nm n : String) (cls : ProviderCls)
    (h : (lookupReg reg n).isSome) : (lookupReg (dictInsert reg nm cls) n).isSome := by
  induction reg with
  | nil => simp [lookupReg] at h
  | cons kv rest ih =>
    obtain ⟨k, v⟩ := kv
    simp only [lookupReg] at h
    by_cases hk : k = nm
    · subst hk
      simp only [dictInsert, if_pos rfl, lookupReg]
      by_cases hn : k = n
      · simp [hn]
      · rw [if_neg hn] at h ⊢
        exact h
    · simp only [dictInsert, if_neg hk, lookupReg]
      by_cases hn : k = n
      · simp [hn]
      · rw [if_neg hn] at h ⊢
        exact ih h

theorem lookupReg_dictInsert_self (reg : Registry) (nm : String) (cls : ProviderCls) :
    (lookupReg (dictInsert reg nm cls) nm).isSome := by
  induction reg with
  | nil => simp [lookupReg, dictInsert]
  | cons kv rest ih =>
    obtain ⟨k, v⟩ := kv
    by_cases hk : k = nm <;> simp [lookupReg, dictInsert, hk]
    exact ih

/-- Inversion of a successful registration: every pre-insert check passed and
the result is the insertion. -/
theorem register_provider_ok (fw : List Nat) (reg : Registry) (nm : String)
    (cls : ProviderCls) (r : Registry)
    (h : register_provider fw reg nm cls = Except.ok r) :
    nm ≠ "" ∧ lookupReg reg nm = none ∧ cls.isSubclassOfBase = true ∧
      versionLt fw cls.min_supported_version = false ∧ r = dictInsert reg nm cls := by
  unfold register_provider at h
  split at h
  · exact absurd h (by simp)
  · split at h
    · exact absurd h (by simp)
    · split at h
      · exact absurd h (by simp)
      · split at h
        · exact absurd h (by simp)
        · rename_i h1 h2 h3 h4
          refine ⟨h1, by simpa using h2, by simpa using h3, by simpa using h4, ?_⟩
          injection h with h5
          exact h5.symm

/-- Inversion of a successful per-entry discovery step. -/
theorem epRegister_some (fw : List Nat) (ep : EntryPoint) (reg : Registry)
    (nm : String) (reg' : Registry) (h : epRegister fw ep reg = some (nm, reg')) :
    ∃ lp, ep.load = Except.ok lp ∧ lp.nameAttr = some nm ∧
      register_provider fw reg nm lp.cls = Except.ok reg' := by
  match hload : ep.load with
  | Except.error e => simp [epRegister, hload] at h
  | Except.ok lp =>
    match hna : lp.nameAttr with
    | none => simp [epRegister, hload, hna] at h
    | some nm' =>
      simp only [epRegister, hload, hna] at h
      match hr : register_provider fw reg nm' lp.cls with
      | Except.error e => simp [hr] at h
      | Except.ok r =>
        simp only [hr, Option.some.injEq, Prod.mk.injEq] at h
        obtain ⟨h1, h2⟩ := h
        exact ⟨lp, rfl, h1 ▸ hna, h1 ▸ h2 ▸ hr⟩

theorem register_provider_ok_keys (fw : List Nat) (reg : Registry) (nm : String)
    (cls : ProviderCls) (r : Registry)
    (h : register_provider fw reg nm cls = Except.ok r) :
    keysSub reg r ∧ (lookupReg r nm).isSome := by
  obtain ⟨-, -, -, -, hr⟩ := register_provider_ok fw reg nm cls r h
  subst hr
  exact ⟨fun n hn => lookupReg_dictInsert_isSome reg nm n cls hn,
    lookupReg_dictInsert_self reg nm cls⟩

/-- A registration that raised keeps raising on any registry with at least the
same names (the failure causes are the name itself, a present duplicate, the
subclass check or the version check — none is undone by registry growth). -/
theorem epRegister_none_mono (fw : List Nat) (ep : EntryPoint) (reg reg₂ : Registry)
    (hsub : keysSub reg reg₂) (h : epRegister fw ep reg = none) :
    epRegister fw ep reg₂ = none := by
  match hload : ep.load with
  | Except.error e => simp [epRegister, hload]
  | Except.ok lp =>
    match hna : lp.nameAttr with
    | none => simp [epRegister, hload, hna]
    | some nm =>
      simp only [epRegister, hload, hna] at h ⊢
      match hr2 : register_provider fw reg₂ nm lp.cls with
      | Except.error e => simp
      | Except.ok r₂ =>
        exfalso
        obtain ⟨hne, habs2, hsubc, hver, -⟩ :=
          register_provider_ok fw reg₂ nm lp.cls r₂ hr2
        match hr1 : register_provider fw reg nm lp.cls with
        | Except.ok r₁ => simp [hr1] at h
        | Except.error e =>
          have habs1 : lookupReg reg nm = none := by
            match hl : lookupReg reg nm with
            | none => rfl
            | some c =>
              have := hsub nm (by simp [hl])
              rw [habs2] at this
              exact absurd this (by simp)
          have hok : register_provider fw reg nm lp.cls =
              Except.ok (dictInsert reg nm lp.cls) := by
            unfold register_provider
            rw [if_neg hne, habs1]
            simp [hsubc, hver]
          rw [hok] at hr1
          exact absurd hr1 (by simp)

theorem discover_providers_keys_mono (fw : List Nat) (eps : List EntryPoint)
    (reg : Registry) : keysSub reg (discover_providers fw eps reg).2 := by
  induction eps generalizing reg with
  | nil => exact fun n h => h
  | cons ep rest ih =>
    unfold discover_providers
    match hstep : epRegister fw ep reg with
    | some (nm, reg') =>
      simp only
      intro n hn
      obtain ⟨lp, -, -, hr⟩ := epRegister_some fw ep reg nm reg' hstep
      exact ih reg' n ((register_provider_ok_keys fw reg nm lp.cls reg' hr).1 n hn)
    | none => exact ih reg

/-- After a full discovery pass, re-attempting any of its entry points fails:
entries that registered are now duplicates, and entries that failed fail for
the same (or a duplicate) reason. -/
theorem epRegister_after_discover (fw : List Nat) (eps : List EntryPoint)
    (reg : Registry) :
    ∀ ep ∈ eps, epRegister fw ep (discover_providers fw eps reg).2 = none := by
  induction eps generalizing reg with
  | nil => intro ep h; exact absurd h (by simp)
  | cons ep0 rest ih =>
    intro ep hep
    unfold discover_providers
    match hstep : epRegister fw ep0 reg with
    | some (nm, reg') =>
      simp only
      rcases List.mem_cons.mp hep with hh | ht
      · subst hh
        obtain ⟨lp, hload, hna, hr⟩ := epRegister_some fw ep reg nm reg' hstep
        have hkeys := (register_provider_ok_keys fw reg nm lp.cls reg' hr).2
        have hfin : (lookupReg (discover_providers fw rest reg').2 nm).isSome :=
          discover_providers_keys_mono fw rest reg' nm hkeys
        simp only [epRegister, hload, hna]
        match hr2 : register_provider fw (discover_providers fw rest reg').2 nm lp.cls with
        | Except.error e => simp
        | Except.ok r₂ =>
          obtain ⟨-, habs, -, -, -⟩ :=
            register_provider_ok fw (discover_providers fw rest reg').2 nm lp.cls r₂ hr2
          rw [habs] at hfin
          exact absurd hfin (by simp)
      · exact ih reg' ep ht
    | none =>
      rcases List.mem_cons.mp hep with hh | ht
      · subst hh
        exact epRegister_none_mono fw ep reg _
          (discover_providers_keys_mono fw rest reg) hstep
      · exact ih reg ep ht

theorem discover_providers_all_none (fw : List Nat) (eps : List EntryPoint)
    (reg : Registry) (h : ∀ ep ∈ eps, epRegister fw ep reg = none) :
    discover_providers fw eps reg = ([], reg) := by
  induction eps with
  | nil => rfl
  | cons ep rest ih =>
    unfold discover_providers
    rw [h ep (by simp)]
    exact ih fun e he => h e (List.mem_cons_of_mem ep he)

theorem lookupReg_eq_none_iff (reg : Registry) (n : String) :
    lookupReg reg n = none ↔ n ∉ reg.map Prod.fst := by
  induction reg with
  | nil => simp [lookupReg]
  | cons kv rest ih =>
    obtain ⟨k, v⟩ := kv
    simp only [lookupReg, List.map_cons, List.mem_cons]
    by_cases hk : k = n
    · simp [hk]
    · rw [if_neg hk, ih]
      constructor
      · intro h hmem
        rcases hmem with heq | hmem
        · exact hk heq.symm
        · exact h hmem
      · intro h hmem
        exact h (Or.inr hmem)

theorem dictInsert_absent (reg : Registry) (nm : String) (cls : ProviderCls)
    (h : lookupReg reg nm = none) : dictInsert reg nm cls = reg ++ [(nm, cls)] := by
  induction reg with
  | nil => rfl
  | cons kv rest ih =>
    obtain ⟨k, v⟩ := kv
    simp only [lookupReg] at h
    by_cases hk : k = nm
    · rw [if_pos hk] at h; exact absurd h (by simp)
    · rw [if_neg hk] at h
      simp [dictInsert, hk, ih h]

theorem register_provider_nodup (fw : List Nat) (reg : Registry) (nm : String)
    (cls : ProviderCls) (r : Registry)
    (h : register_provider fw reg nm cls = Except.ok r)
    (hnd : (reg.map Prod.fst).Nodup) : (r.map Prod.fst).Nodup := by
  obtain ⟨-, habs, -, -, hr⟩ := register_provider_ok fw reg nm cls r h
  subst hr
  rw [dictInsert_absent reg nm cls habs, List.map_append]
  simp only [List.map_cons, List.map_nil]
  refine List.Nodup.append hnd (by simp) ?_
  intro a ha hb
  simp only [List.mem_singleton] at hb
  exact ((lookupReg_eq_none_iff reg nm).mp habs) (hb ▸ ha)

theorem discover_providers_nodup (fw : List Nat) (eps : List EntryPoint)
    (reg : Registry) (hnd : (reg.map Prod.fst).Nodup) :
    (((discover_providers fw eps reg).2).map Prod.fst).Nodup := by
  induction eps generalizing reg with
  | nil => exact hnd
  | cons ep rest ih =>
    unfold discover_providers
    match hstep : epRegister fw ep reg with
    | some (nm, reg') =>
      simp only
      obtain ⟨lp, -, -, hr⟩ := epRegister_some fw ep reg nm reg' hstep
      exact ih reg' (register_provider_nodup fw reg nm lp.cls reg' hr hnd)
    | none => exact ih reg hnd

/-! ### Claim theorems for `discover_providers` -/

/-- Entry point loading the sample provider under the name `x`. -/
def epX : EntryPoint := ⟨"e", Except.ok ⟨some "x", syncProvider⟩⟩

/-- C4 (counterexample): discovery called twice in succession does not return
the same set of names from both calls — with one discoverable entry point and
an empty registry the first call returns `[x]` while the second returns `[]`
(the re-registration is a duplicate failure, caught and logged, and only names
registered during the call are returned). -/
theorem discover_providers_twice_names_differ :
    (discover_providers [0, 1, 8] [epX] []).1 = ["x"] ∧
    (discover_providers [0, 1, 8] [epX]
        (discover_providers [0, 1, 8] [epX] []).2).1 = [] ∧
    (["x"] : List String) ≠ [] := by
  refine ⟨rfl, rfl, by simp⟩

/-- C4 (amended): a second discovery call over the same entry points returns
the empty list of newly registered names and leaves the registry exactly as the
first call left it, and the registry remains in a consistent non-duplicated
state — when the starting registry has no duplicate names, neither does the
registry after discovery (each discovered provider is registered exactly
once). -/
theorem discover_providers_twice_spec (fw : List Nat) (eps : List EntryPoint)
    (reg : Registry) :
    discover_providers fw eps (discover_providers fw eps reg).2 =
      ([], (discover_providers fw eps reg).2) ∧
    ((reg.map Prod.fst).Nodup →
      (((discover_providers fw eps reg).2).map Prod.fst).Nodup) :=
  ⟨discover_providers_all_none fw eps _ (epRegister_after_discover fw eps reg),
   fun hnd => discover_providers_nodup fw eps reg hnd⟩

/-- Witness for C4 (amended) at one entry point over the empty registry. -/
theorem discover_providers_twice_spec_witness :
    discover_providers [0, 1, 8] [epX] (discover_providers [0, 1, 8] [epX] []).2 =
      ([], (discover_providers [0, 1, 8] [epX] []).2) ∧
    (((discover_providers [0, 1, 8] [epX] []).2).map Prod.fst).Nodup :=
  ⟨(discover_providers_twice_spec [0, 1, 8] [epX] []).1,
   (discover_providers_twice_spec [0, 1, 8] [epX] []).2 (by simp)⟩

/-! ### base.py: provider construction (`BaseTranslationProvider.__init__`) -/

/-- A constructed provider instance: the class it was built from and the config
it stores (`self.config = config`). -/
structure ProviderInstance where
  cls : ProviderCls
  config : TranslationConfig

/-- Embedding of `BaseTranslationProvider.validate_config`: rejects a falsy
(empty) `api_key`, then rejects a falsy (absent or empty) `region` when the
provider requires one. -/
def validate_config (cls : ProviderCls) (config : TranslationConfig) : Except PyErr Unit :=
  if config.api_key = "" then
    Except.error (PyErr.configurationError "API key is required")
  else if cls.requires_region && !pyTruthyStr config.region then
    Except.error (PyErr.configurationError "Region is required for this provider")
  else
    Except.ok ()

/-- Embedding of `BaseTranslationProvider.__init__`, parametrised by the
running framework version `fw`.  Order as in the source: falsy `name` is
rejected first; then a truthy `min_supported_version` newer than `fw` is
rejected; then the config is stored and `validate_config` runs.  The
rate-limit bookkeeping (`_last_request_time`, lazily created lock) carries no
information at construction and is not modelled. -/
def provider_init (fw : List Nat) (cls : ProviderCls) (config : TranslationConfig) :
    Except PyErr ProviderInstance :=
  if cls.name = "" then
    Except.error (PyErr.configurationError "Provider name must be set")
  else if !cls.min_supported_version.isEmpty && versionLt fw cls.min_supported_version then
    Except.error (PyErr.configurationError "Provider requires a newer mt_providers")
  else
    match validate_config cls config with
    | Except.error e => Except.error e
    | Except.ok _ => Except.ok ⟨cls, config⟩

/-- Provider class whose `name` attribute is falsy (unset/empty). -/
def namelessProvider : ProviderCls := { name := "", translate := sampleRespFn }

/-- Provider class that requires a region. -/
def regionProvider : ProviderCls :=
  { name := "regional", requires_region := true, translate := sampleRespFn }

/-- C6 (counterexample): the claim says construction succeeds for every
provider type whenever `api_key` is non-empty (and region present where
required).  A provider type with an empty `name` fails construction first,
with a configuration error, despite a non-empty `api_key` and no region
requirement. -/
theorem provider_init_nameless_fails :
    provider_init [0, 1, 8] namelessProvider { api_key := "k" } =
      Except.error (PyErr.configurationError "Provider name must be set") ∧
    ({ api_key := "k" } : TranslationConfig).api_key ≠ "" ∧
    namelessProvider.requires_region = false := by
  refine ⟨rfl, by simp, rfl⟩

/-- C6 (amended): for every provider type with a non-empty `name` and a
declared minimum version not newer than the running framework version, and
every config: construction raises a configuration error when `api_key` is
empty; raises a configuration error when the provider requires a region and
the config's region is absent or empty; and otherwise succeeds, storing the
given config on the instance. -/
theorem provider_init_spec (fw : List Nat) (cls : ProviderCls)
    (config : TranslationConfig) (hname : cls.name ≠ "")
    (hver : (!cls.min_supported_version.isEmpty &&
      versionLt fw cls.min_supported_version) = false) :
    (config.api_key = "" →
      provider_init fw cls config =
        Except.error (PyErr.configurationError "API key is required")) ∧
    (config.api_key ≠ "" → cls.requires_region = true → pyTruthyStr config.region = false →
      provider_init fw cls config =
        Except.error (PyErr.configurationError "Region is required for this provider")) ∧
    (config.api_key ≠ "" → (cls.requires_region = true → pyTruthyStr config.region = true) →
      provider_init fw cls config = Except.ok ⟨cls, config⟩) := by
  refine ⟨?_, ?_, ?_⟩
  · intro hk
    simp [provider_init, validate_config, hname, hver, hk]
  · intro hk hr hreg
    simp [provider_init, validate_config, hname, hver, hk, hr, hreg]
  · intro hk hreg
    match hr : cls.requires_region with
    | false => simp [provider_init, validate_config, hname, hver, hk, hr]
    | true => simp [provider_init, validate_config, hname, hver, hk, hr, hreg hr]

/-- Witness for C6 (amended): with the region-requiring provider, empty
`api_key` fails, missing region fails, and a full config succeeds storing the
config. -/
theorem provider_init_spec_witness :
    (provider_init [0, 1, 8] regionProvider { api_key := "" } =
      Except.error (PyErr.configurationError "API key is required")) ∧
    (provider_init [0, 1, 8] regionProvider { api_key := "k" } =
      Except.error (PyErr.configurationError "Region is required for this provider")) ∧
    (provider_init [0, 1, 8] regionProvider { api_key := "k", region := some "westeurope" } =
      Except.ok ⟨regionProvider, { api_key := "k", region := some "westeurope" }⟩) :=
  ⟨(provider_init_spec [0, 1, 8] regionProvider { api_key := "" }
      (by simp [regionProvider]) (by rfl)).1 rfl,
   (provider_init_spec [0, 1, 8] regionProvider { api_key := "k" }
      (by simp [regionProvider]) (by rfl)).2.1 (by simp) rfl rfl,
   (provider_init_spec [0, 1, 8] regionProvider { api_key := "k", region := some "westeurope" }
      (by simp [regionProvider]) (by rfl)).2.2 (by simp) (fun _ => rfl)⟩

/-! ### registry.py: `check_provider_health` -/

/-- Tenacity's `wait_exponential(multiplier, min, max)` wait before the retry
following attempt number `attempt`: the exponential `multiplier * 2 ^ attempt`
clamped into `[mn, mx]`.  With the source's parameters (1, 4, 10) the waits
after attempts 1 and 2 are both clamped to the minimum 4. -/
def wait_exponential (multiplier mn mx attempt : Nat) : Nat :=
  max mn (min (multiplier * 2 ^ attempt) mx)

/-- Behaviour of a registered provider under the health check.  The body of
`check_provider_health` looks the provider up, instantiates it, and calls
`translate_async` (when `supports_async`) or `translate`; any of that may
raise and the raised error is re-raised to the retry wrapper.  Because
attempts are separated in time, the outcome may differ per attempt: the
functions take the attempt number.  A `.error` models a raised exception from
anywhere inside the `try` block; an `.ok` models a returned response. -/
structure ProviderBehavior where
  supports_async : Bool
  translateB : Nat → String → String → String → Except PyErr TranslationResponse
  translateAsyncB : Nat → String → String → String → Except PyErr TranslationResponse

/-- The translation call chosen by the health check at attempt `n`: the async
path iff the provider declares async support, on the fixed pair en→fr. -/
def health_translate (pb : ProviderBehavior) (test_text : String) (n : Nat) :
    Except PyErr TranslationResponse :=
  if pb.supports_async then pb.translateAsyncB n test_text "en" "fr"
  else pb.translateB n test_text "en" "fr"

/-- One attempt of the health-check body: `result.get("status") == SUCCESS`
on a returned response; a raised error is logged and re-raised. -/
def health_attempt (pb : ProviderBehavior) (test_text : String) (n : Nat) :
    Except PyErr Bool :=
  match health_translate pb test_text n with
  | Except.error e => Except.error e
  | Except.ok r => Except.ok (decide (r.status = TranslationStatus.success))

/-- Tenacity's retry loop: run attempt `n`; a returned value ends the loop, a
raised error either propagates (no retries left) or causes a
`wait_exponential 1 4 10` backoff and a retry.  Returns the result together
with the list of waits performed between attempts. -/
def retryFrom (attempt : Nat → Except PyErr Bool) : Nat → Nat → Except PyErr Bool × List Nat
  | n, 0 => (attempt n, [])
  | n, fuel + 1 =>
    match attempt n with
    | Except.ok b => (Except.ok b, [])
    | Except.error _ =>
      let p := retryFrom attempt (n + 1) fuel
      (p.1, wait_exponential 1 4 10 n :: p.2)

/-- Embedding of `check_provider_health` under
`@retry(stop=stop_after_attempt(3), wait=wait_exponential(multiplier=1, min=4, max=10))`:
attempt 1 followed by at most 2 retries. -/
def check_provider_health (pb : ProviderBehavior) (test_text : String) :
    Except PyErr Bool × List Nat :=
  retryFrom (health_attempt pb test_text) 1 2

/-- C3: the health check resolves to true iff the chosen translation path
(async when declared, else sync) returns a response with status SUCCESS — a
returned FAILED (or PENDING) response resolves to false immediately, with no
retry and no backoff wait; a raised error triggers a retry after a
`wait_exponential 1 4 10` backoff, up to 3 total attempts; and when every
attempt raises, the last raised error propagates to the caller after the two
backoff waits. -/
theorem check_provider_health_spec (pb : ProviderBehavior) (t : String) :
    (∀ r, health_translate pb t 1 = Except.ok r →
      check_provider_health pb t =
        (Except.ok (decide (r.status = TranslationStatus.success)), [])) ∧
    (∀ e r, health_translate pb t 1 = Except.error e →
        health_translate pb t 2 = Except.ok r →
      check_provider_health pb t =
        (Except.ok (decide (r.status = TranslationStatus.success)),
          [wait_exponential 1 4 10 1])) ∧
    (∀ e₁ e₂ e₃, health_translate pb t 1 = Except.error e₁ →
        health_translate pb t 2 = Except.error e₂ →
        health_translate pb t 3 = Except.error e₃ →
      check_provider_health pb t =
        (Except.error e₃, [wait_exponential 1 4 10 1, wait_exponential 1 4 10 2])) := by
  refine ⟨?_, ?_, ?_⟩
  · intro r h1
    simp [check_provider_health, retryFrom, health_attempt, h1]
  · intro e r h1 h2
    simp [check_provider_health, retryFrom, health_attempt, h1, h2]
  · intro e₁ e₂ e₃ h1 h2 h3
    simp [check_provider_health, retryFrom, health_attempt, h1, h2, h3]

/-- Response with SUCCESS status used by health-check witnesses. -/
def okResp : TranslationResponse :=
  create_response "sync" "ok" "en" "fr" 2 none none "rid" 0

/-- Response with FAILED status used by health-check witnesses. -/
def failResp : TranslationResponse :=
  create_response "sync" "" "en" "fr" 2 (some "upstream down") none "rid" 0

/-- Sync provider behaviour whose translate succeeds. -/
def pbOk : ProviderBehavior :=
  { supports_async := false
    translateB := fun _ _ _ _ => Except.ok okResp
    translateAsyncB := fun _ _ _ _ =>
      Except.error (PyErr.notImplementedError "Async translation not implemented") }

/-- Sync provider behaviour returning a FAILED response. -/
def pbFailed : ProviderBehavior :=
  { supports_async := false
    translateB := fun _ _ _ _ => Except.ok failResp
    translateAsyncB := fun _ _ _ _ =>
      Except.error (PyErr.notImplementedError "Async translation not implemented") }

/-- Sync provider behaviour raising on every attempt. -/
def pbRaises : ProviderBehavior :=
  { supports_async := false
    translateB := fun n _ _ _ => Except.error (PyErr.providerError ("boom " ++ toString n))
    translateAsyncB := fun _ _ _ _ =>
      Except.error (PyErr.notImplementedError "Async translation not implemented") }

/-- Witness for C3: a SUCCESS response yields true with no waits, a FAILED
response yields false with no waits, and an always-raising provider propagates
the last error after two backoff waits. -/
theorem check_provider_health_spec_witness :
    check_provider_health pbOk "test" = (Except.ok true, []) ∧
    check_provider_health pbFailed "test" = (Except.ok false, []) ∧
    check_provider_health pbRaises "test" =
      (Except.error (PyErr.providerError "boom 3"),
        [wait_exponential 1 4 10 1, wait_exponential 1 4 10 2]) :=
  ⟨(check_provider_health_spec pbOk "test").1 okResp rfl,
   (check_provider_health_spec pbFailed "test").1 failResp rfl,
   (check_provider_health_spec pbRaises "test").2.2 _ _ _ rfl rfl rfl⟩

/-! ### registry.py: concurrency of `register_provider`

In the source the duplicate/name/subclass/version checks run **before**
`_registry_lock` is acquired; only the dict insert is under the lock.  A
`register_provider` call from one thread is therefore two atomic phases: the
checks (a read of the registry), then the locked insert.  The interleaving
model below runs two such calls under an arbitrary schedule. -/

/-- Phase of one in-flight `register_provider` call. -/
inductive ThreadPhase where
  | ready
  | checked
  | doneOk
  | doneErr
  deriving DecidableEq, Repr

/-- The pre-lock check sequence of `register_provider`, as a predicate on the
registry snapshot the thread reads: true means every check passed (no raise)
and the call proceeds to the locked insert. -/
def registerChecks (fw : List Nat) (reg : Registry) (name : String)
    (cls : ProviderCls) : Bool :=
  !(decide (name = "")) && !(lookupReg reg name).isSome &&
    cls.isSubclassOfBase && !(versionLt fw cls.min_supported_version)

/-- Shared state of the two-thread execution. -/
structure RaceState where
  reg : Registry
  phase1 : ThreadPhase
  phase2 : ThreadPhase

/-- One scheduler step: run the next phase of thread 1 (`tid = false`) or
thread 2 (`tid = true`).  A thread in `ready` runs the pre-lock checks and
either advances to `checked` or raises (`doneErr`); a thread in `checked`
performs the locked insert (Python dict assignment) and finishes. -/
def raceStep (fw : List Nat) (n₁ : String) (c₁ : ProviderCls) (n₂ : String)
    (c₂ : ProviderCls) (s : RaceState) (tid : Bool) : RaceState :=
  if tid = false then
    match s.phase1 with
    | ThreadPhase.ready =>
      if registerChecks fw s.reg n₁ c₁ then { s with phase1 := ThreadPhase.checked }
      else { s with phase1 := ThreadPhase.doneErr }
    | ThreadPhase.checked =>
      { s with reg := dictInsert s.reg n₁ c₁, phase1 := ThreadPhase.doneOk }
    | _ => s
  else
    match s.phase2 with
    | ThreadPhase.ready =>
      if registerChecks fw s.reg n₂ c₂ then { s with phase2 := ThreadPhase.checked }
      else { s with phase2 := ThreadPhase.doneErr }
    | ThreadPhase.checked =>
      { s with reg := dictInsert s.reg n₂ c₂, phase2 := ThreadPhase.doneOk }
    | _ => s

/-- Run a schedule of two concurrent `register_provider` calls. -/
def runSchedule (fw : List Nat) (n₁ : String) (c₁ : ProviderCls) (n₂ : String)
    (c₂ : ProviderCls) (s : RaceState) (sched : List Bool) : RaceState :=
  sched.foldl (raceStep fw n₁ c₁ n₂ c₂) s

/-- Second registrant for the same name, distinguishable by `max_chunk_size`. -/
def clsOther : ProviderCls := { name := "x", max_chunk_size := 1, translate := sampleRespFn }

/-- C2 (violation exhibited): under the schedule check₁, check₂, insert₁,
insert₂ two concurrent registrations of the same name `x` both pass the
duplicate check (it runs outside the lock) and both complete without raising;
the second insert silently overwrites the first, so the final mapping holds
the second class, not the first-registered one. -/
theorem register_race_bypasses_duplicate_check :
    (runSchedule [0, 1, 8] "x" syncProvider "x" clsOther
        ⟨[], ThreadPhase.ready, ThreadPhase.ready⟩ [false, true, false, true]).phase1 =
      ThreadPhase.doneOk ∧
    (runSchedule [0, 1, 8] "x" syncProvider "x" clsOther
        ⟨[], ThreadPhase.ready, ThreadPhase.ready⟩ [false, true, false, true]).phase2 =
      ThreadPhase.doneOk ∧
    (lookupReg (runSchedule [0, 1, 8] "x" syncProvider "x" clsOther
        ⟨[], ThreadPhase.ready, ThreadPhase.ready⟩ [false, true, false, true]).reg "x").map
      (fun c => c.max_chunk_size) = some 1 ∧
    syncProvider.max_chunk_size ≠ clsOther.max_chunk_size := by
  refine ⟨rfl, rfl, rfl, by decide⟩

/-! ### utils.py: language-code validation and normalization

The regex is `^[a-z]{2,3}(-[A-Z][a-z]{3})?(-[A-Z]{2})?$`.  The matcher below
embeds it structurally: a greedy 2-or-3 lowercase prefix (3 tried first, as a
boolean alternative — equivalent as a language), an optional script subtag
`-[A-Z][a-z]{3}`, an optional region subtag `-[A-Z]{2}`, then end of string.
(`re.match` with a final `$` would also accept a trailing newline; that corner
is irrelevant to the properties below and end-of-string is used.)  Character
classes are by ASCII code point, and `str.lower()` is the ASCII lowercase map
`pyLowerChar` — the two agree on every string the regex accepts. -/

/-- ASCII class `[a-z]`. -/
def isLowerAlpha (c : Char) : Bool := 97 ≤ c.toNat && c.toNat ≤ 122

/-- ASCII class `[A-Z]`. -/
def isUpperAlpha (c : Char) : Bool := 65 ≤ c.toNat && c.toNat ≤ 90

/-- The optional script group `-[A-Z][a-z]{3}`: consumed input remainder. -/
def matchScript : List Char → Option (List Char)
  | c0 :: c :: c1 :: c2 :: c3 :: rest =>
    if c0 = '-' && isUpperAlpha c && isLowerAlpha c1 && isLowerAlpha c2 && isLowerAlpha c3
    then some rest else none
  | _ => none

/-- The optional region group `-[A-Z]{2}`: consumed input remainder. -/
def matchRegion : List Char → Option (List Char)
  | c0 :: c1 :: c2 :: rest =>
    if c0 = '-' && isUpperAlpha c1 && isUpperAlpha c2 then some rest else none
  | _ => none

/-- Optional region then end of input. -/
def regionEnd (cs : List Char) : Bool :=
  (match matchRegion cs with
   | some r => r.isEmpty
   | none => false) || cs.isEmpty

/-- Optional script, then optional region, then end of input (with the
backtracking alternative of skipping the script group). -/
def matchTail (cs : List Char) : Bool :=
  (match matchScript cs with
   | some r => regionEnd r
   | none => false) || regionEnd cs

/-- Full-pattern match on the character list: `[a-z]{2,3}` (greedy, with the
2-letter backtracking alternative) followed by `matchTail`. -/
def validateChars : List Char → Bool
  | c1 :: c2 :: rest =>
    isLowerAlpha c1 && isLowerAlpha c2 &&
      (match rest with
       | c3 :: rest2 => (isLowerAlpha c3 && matchTail rest2) || matchTail rest
       | [] => matchTail rest)
  | _ => false

/-- Embedding of `validate_language_code`. -/
def validate_language_code (s : String) : Bool := validateChars s.data

/-- Python `str.lower()` on ASCII: maps `A`–`Z` to `a`–`z`, fixes the rest. -/
def pyLowerChar (c : Char) : Char :=
  if isUpperAlpha c then Char.ofNat (c.toNat + 32) else c

/-- Python `str.lower()` lifted to strings (ASCII range). -/
def pyLower (s : String) : String := String.mk (s.data.map pyLowerChar)

/-- Embedding of `normalize_language_code`: raises `ValidationError` when the
format check fails, otherwise returns the lowercased code. -/
def normalize_language_code (s : String) : Except PyErr String :=
  if validate_language_code s then Except.ok (pyLower s)
  else Except.error (PyErr.validationError ("Invalid language code: " ++ s))

example : validate_language_code "en-US" = true := by decide
example : validate_language_code "zh-Hans" = true := by decide
example : validate_language_code "zh-Hans-CN" = true := by decide
example : validate_language_code "en" = true := by decide
example : validate_language_code "deu" = true := by decide
example : validate_language_code "en-us" = false := by decide
example : validate_language_code "zh-hans" = false := by decide
example : validate_language_code "invalid" = false := by decide
example : pyLower "en-US" = "en-us" := by decide

theorem toNat_ofNat_small (n : Nat) (h : n < 55296) : (Char.ofNat n).toNat = n := by
  have hv : n.isValidChar := Or.inl h
  rw [Char.ofNat, dif_pos hv]
  simp [Char.ofNatAux, Char.toNat, Nat.toUInt32, UInt32.toNat, UInt32.ofNat']

theorem isUpperAlpha_toNat {c : Char} (h : isUpperAlpha c = true) :
    65 ≤ c.toNat ∧ c.toNat ≤ 90 := by
  simpa [isUpperAlpha, Bool.and_eq_true, decide_eq_true_eq] using h

theorem isLowerAlpha_toNat {c : Char} (h : isLowerAlpha c = true) :
    97 ≤ c.toNat ∧ c.toNat ≤ 122 := by
  simpa [isLowerAlpha, Bool.and_eq_true, decide_eq_true_eq] using h

theorem lower_ne_upper {c : Char} (h : isLowerAlpha c = true) : isUpperAlpha c = false := by
  obtain ⟨h1, h2⟩ := isLowerAlpha_toNat h
  simp only [isUpperAlpha, Bool.and_eq_false_iff, decide_eq_false_iff_not]
  right
  omega

theorem pyLowerChar_lower {c : Char} (h : isLowerAlpha c = true) : pyLowerChar c = c := by
  simp [pyLowerChar, lower_ne_upper h]

theorem isUpperAlpha_pyLowerChar {c : Char} (h : isUpperAlpha c = true) :
    isUpperAlpha (pyLowerChar c) = false := by
  obtain ⟨h1, h2⟩ := isUpperAlpha_toNat h
  have ht := toNat_ofNat_small (c.toNat + 32) (by omega)
  rw [pyLowerChar, if_pos h]
  simp only [isUpperAlpha, ht, Bool.and_eq_false_iff, decide_eq_false_iff_not]
  right
  omega

theorem isLowerAlpha_ne_dash {c : Char} (h : isLowerAlpha c = true) : ¬c = '-' := by
  intro he
  rw [he] at h
  exact absurd h (by decide)

theorem pyLowerChar_dash : pyLowerChar '-' = '-' := by decide

theorem matchScript_head_not_dash {d : Char} (hd : ¬d = '-') (xs : List Char) :
    matchScript (d :: xs) = none := by
  match xs with
  | [] => rfl
  | [a] => rfl
  | [a, b] => rfl
  | [a, b, c] => rfl
  | a :: b :: c :: e :: r => simp [matchScript, hd]

theorem matchRegion_head_not_dash {d : Char} (hd : ¬d = '-') (xs : List Char) :
    matchRegion (d :: xs) = none := by
  match xs with
  | [] => rfl
  | [a] => rfl
  | a :: b :: r => simp [matchRegion, hd]

/-- A nonempty tail whose head is not the hyphen matches neither optional
group nor the end of input. -/
theorem matchTail_head_not_dash {d : Char} (hd : ¬d = '-') (xs : List Char) :
    matchTail (d :: xs) = false := by
  simp [matchTail, regionEnd, matchScript_head_not_dash hd,
    matchRegion_head_not_dash hd]

theorem matchScript_dash_notUpper {u : Char} (hu : isUpperAlpha u = false)
    (xs : List Char) : matchScript ('-' :: u :: xs) = none := by
  match xs with
  | [] => rfl
  | [a] => rfl
  | [a, b] => rfl
  | a :: b :: c :: r => simp [matchScript, hu]

theorem matchRegion_dash_notUpper {u : Char} (hu : isUpperAlpha u = false)
    (xs : List Char) : matchRegion ('-' :: u :: xs) = none := by
  match xs with
  | [] => rfl
  | a :: r => simp [matchRegion, hu]

/-- A hyphen followed by a non-uppercase character matches neither group. -/
theorem matchTail_dash_notUpper {u : Char} (hu : isUpperAlpha u = false)
    (xs : List Char) : matchTail ('-' :: u :: xs) = false := by
  simp [matchTail, regionEnd, matchScript_dash_notUpper hu,
    matchRegion_dash_notUpper hu]

/-- Shape of a matching tail: it is empty, or a hyphen followed by an
uppercase letter (both groups require one). -/
theorem matchTail_cases {cs : List Char} (h : matchTail cs = true) :
    cs = [] ∨ ∃ u cs', cs = '-' :: u :: cs' ∧ isUpperAlpha u = true := by
  match cs with
  | [] => exact Or.inl rfl
  | [d] =>
    exfalso
    simp [matchTail, matchScript, matchRegion, regionEnd] at h
  | d :: u :: cs' =>
    refine Or.inr ⟨u, cs', ?_⟩
    by_cases hd : d = '-'
    · subst hd
      match hu : isUpperAlpha u with
      | true => exact ⟨rfl, rfl⟩
      | false =>
        rw [matchTail_dash_notUpper hu] at h
        exact absurd h (by simp)
    · rw [matchTail_head_not_dash hd] at h
      exact absurd h (by simp)

/-- Lowercasing a string the pattern accepts breaks the pattern whenever the
string contains an uppercase letter: the uppercase letter necessarily sits
right after a hyphen in the tail, and after lowering neither optional group
can match there. -/
theorem validateChars_lower_false (l : List Char) (hv : validateChars l = true)
    (hu : l.any isUpperAlpha = true) :
    validateChars (l.map pyLowerChar) = false := by
  rcases l with _ | ⟨c1, _ | ⟨c2, _ | ⟨c3, rest2⟩⟩⟩
  · simp [validateChars] at hv
  · simp [validateChars] at hv
  · exfalso
    simp only [validateChars, Bool.and_eq_true] at hv
    obtain ⟨⟨hl1, hl2⟩, -⟩ := hv
    simp [List.any_cons, lower_ne_upper hl1, lower_ne_upper hl2] at hu
  · simp only [validateChars, Bool.and_eq_true] at hv
    obtain ⟨⟨hl1, hl2⟩, hbr⟩ := hv
    have hu2 : (c3 :: rest2).any isUpperAlpha = true := by
      simpa [List.any_cons, lower_ne_upper hl1, lower_ne_upper hl2] using hu
    simp only [List.map_cons, pyLowerChar_lower hl1, pyLowerChar_lower hl2,
      validateChars, hl1, hl2, Bool.true_and]
    rw [Bool.or_eq_true, Bool.and_eq_true] at hbr
    rcases hbr with ⟨h3, ht⟩ | hB
    · have hur : rest2.any isUpperAlpha = true := by
        simpa [List.any_cons, lower_ne_upper h3] using hu2
      have hne : rest2 ≠ [] := by
        intro he
        rw [he] at hur
        exact absurd hur (by simp)
      rcases matchTail_cases ht with he | ⟨u, cs', hsh, huu⟩
      · exact absurd he hne
      · subst hsh
        simp only [List.map_cons, pyLowerChar_dash, pyLowerChar_lower h3]
        rw [matchTail_dash_notUpper (isUpperAlpha_pyLowerChar huu),
          matchTail_head_not_dash (isLowerAlpha_ne_dash h3)]
        simp
    · rcases matchTail_cases hB with he | ⟨u, cs', hsh, huu⟩
      · exact absurd he (by simp)
      · have hc3 : c3 = '-' ∧ rest2 = u :: cs' := by simpa using hsh
        obtain ⟨hc3, hrest⟩ := hc3
        subst hc3
        subst hrest
        simp only [List.map_cons, pyLowerChar_dash]
        rw [matchTail_dash_notUpper (isUpperAlpha_pyLowerChar huu)]
        simp [isLowerAlpha]

/-- C10: for every language code the validator accepts that contains an
uppercase letter (an uppercase region or script subtag — the letter parts are
required lowercase), normalization returns the lowercased string, the
validator rejects that lowercased string, and hence applying
`normalize_language_code` to its own output raises a `ValidationError`:
normalization does not round-trip with validation and is not idempotent. -/
theorem normalize_language_code_not_roundtrip (s : String)
    (hv : validate_language_code s = true)
    (hu : s.data.any isUpperAlpha = true) :
    normalize_language_code s = Except.ok (pyLower s) ∧
    validate_language_code (pyLower s) = false ∧
    normalize_language_code (pyLower s) =
      Except.error (PyErr.validationError ("Invalid language code: " ++ pyLower s)) := by
  have hlow : validate_language_code (pyLower s) = false :=
    validateChars_lower_false s.data hv hu
  exact ⟨by simp [normalize_language_code, hv],
    hlow, by simp [normalize_language_code, hlow]⟩

/-- Witness for C10 at the claim's example `en-US`: accepted by the validator,
lowercased to `en-us` by normalization, rejected by the validator, and
re-normalization raises. -/
theorem normalize_language_code_not_roundtrip_witness :
    validate_language_code "en-US" = true ∧
    normalize_language_code "en-US" = Except.ok (pyLower "en-US") ∧
    validate_language_code (pyLower "en-US") = false ∧
    normalize_language_code (pyLower "en-US") =
      Except.error (PyErr.validationError ("Invalid language code: " ++ pyLower "en-US")) := by
  have h := normalize_language_code_not_roundtrip "en-US" (by decide) (by decide)
  exact ⟨by decide, h.1, h.2.1, h.2.2⟩

end MTProviders
